import Mathlib

/-!
Verification of the connection-inventory builder of netstat-cat
(src/src-tauri/src/netstat.rs and src/src-tauri/src/process_info.rs).

The OS-facing collaborators (the netstat2 socket enumerator and the
sysinfo process-table reader) are external library calls; their outputs
are parameters of the embedded build function.  Everything downstream of
those two queries is translated from the source.
-/

namespace NetstatCat

/-- An IPv4 address as four octets, mirroring std::net::Ipv4Addr. -/
structure Ipv4Addr where
  o1 : Nat
  o2 : Nat
  o3 : Nat
  o4 : Nat
deriving DecidableEq, Repr

/-- An IPv6 address as eight 16-bit segments, mirroring std::net::Ipv6Addr. -/
structure Ipv6Addr where
  s1 : Nat
  s2 : Nat
  s3 : Nat
  s4 : Nat
  s5 : Nat
  s6 : Nat
  s7 : Nat
  s8 : Nat
deriving DecidableEq, Repr

/-- std::net::IpAddr: either family. -/
inductive IpAddr where
  | V4 : Ipv4Addr → IpAddr
  | V6 : Ipv6Addr → IpAddr
deriving DecidableEq, Repr

/-- Ipv4Addr::is_unspecified: the address is 0.0.0.0. -/
def Ipv4Addr.is_unspecified (a : Ipv4Addr) : Bool :=
  a.o1 = 0 ∧ a.o2 = 0 ∧ a.o3 = 0 ∧ a.o4 = 0

/-- Ipv6Addr::is_unspecified: every segment is zero. -/
def Ipv6Addr.is_unspecified (a : Ipv6Addr) : Bool :=
  a.s1 = 0 ∧ a.s2 = 0 ∧ a.s3 = 0 ∧ a.s4 = 0 ∧
  a.s5 = 0 ∧ a.s6 = 0 ∧ a.s7 = 0 ∧ a.s8 = 0

/-- The Display form of an Ipv4Addr: dotted decimal octets. -/
def Ipv4Addr.to_string (a : Ipv4Addr) : String :=
  toString a.o1 ++ "." ++ toString a.o2 ++ "." ++ toString a.o3 ++ "." ++ toString a.o4

/-- Lowercase hexadecimal rendering of a 16-bit segment, no leading zeros. -/
def u16Hex (n : Nat) : String :=
  String.mk (Nat.toDigits 16 n)

/-- Hex segments joined by single colons (fmt_subslice in Rust std). -/
def fmtSubslice (segs : List Nat) : String :=
  String.intercalate ":" (segs.map u16Hex)

/-- The embedded IPv4 tail of an IPv6 address: segments g and h rendered
as four decimal octets (each segment split into its two bytes). -/
def ipv4Tail (g h : Nat) : String :=
  toString (g / 256 % 256) ++ "." ++ toString (g % 256) ++ "." ++
  toString (h / 256 % 256) ++ "." ++ toString (h % 256)

/-- The first longest run of zero segments, as (start, length); ties go to
the earliest run, mirroring the span scan in the Rust std Display code. -/
def longestZeroRun (segs : List Nat) : Nat × Nat :=
  (segs.foldl
    (fun acc seg =>
      let longest := acc.1
      let current := acc.2.1
      let i := acc.2.2
      if seg = 0 then
        let cur : Nat × Nat := (if current.2 = 0 then i else current.1, current.2 + 1)
        if cur.2 > longest.2 then (cur, cur, i + 1) else (longest, cur, i + 1)
      else (longest, ((0, 0) : Nat × Nat), i + 1))
    (((0, 0) : Nat × Nat), ((0, 0) : Nat × Nat), (0 : Nat))).1

/-- The Display form of an Ipv6Addr, following the current Rust std
algorithm: an IPv4-mapped address (first five segments zero, sixth
0xffff) is written "::ffff:" followed by the dotted IPv4 tail; every
other address is written as hex segments with the first longest run of
two or more zero segments compressed to "::" (which covers the all-zero
address "::" and loopback "::1" with no special case). -/
def Ipv6Addr.to_string (x : Ipv6Addr) : String :=
  let segs := [x.s1, x.s2, x.s3, x.s4, x.s5, x.s6, x.s7, x.s8]
  if x.s1 = 0 ∧ x.s2 = 0 ∧ x.s3 = 0 ∧ x.s4 = 0 ∧ x.s5 = 0 ∧ x.s6 = 65535 then
    "::ffff:" ++ ipv4Tail x.s7 x.s8
  else
    let zr := longestZeroRun segs
    if zr.2 > 1 then
      fmtSubslice (segs.take zr.1) ++ "::" ++ fmtSubslice (segs.drop (zr.1 + zr.2))
    else
      fmtSubslice segs

/-- IpAddr Display: delegates to the family-specific form. -/
def IpAddr.to_string : IpAddr → String
  | IpAddr.V4 v4 => v4.to_string
  | IpAddr.V6 v6 => v6.to_string

/-- netstat2 TcpState: the thirteen states of the enumerator's enum. -/
inductive TcpState where
  | Closed
  | Listen
  | SynSent
  | SynReceived
  | Established
  | FinWait1
  | FinWait2
  | CloseWait
  | Closing
  | LastAck
  | TimeWait
  | DeleteTcb
  | Unknown
deriving DecidableEq, Repr, Fintype

/-- netstat2 TcpSocketInfo: local and remote endpoint plus TCP state. -/
structure TcpSocketInfo where
  local_addr : IpAddr
  local_port : Nat
  remote_addr : IpAddr
  remote_port : Nat
  state : TcpState
deriving DecidableEq, Repr

/-- netstat2 UdpSocketInfo: local endpoint only (UDP has no remote). -/
structure UdpSocketInfo where
  local_addr : IpAddr
  local_port : Nat
deriving DecidableEq, Repr

/-- netstat2 ProtocolSocketInfo: transport-specific socket data. -/
inductive ProtocolSocketInfo where
  | Tcp : TcpSocketInfo → ProtocolSocketInfo
  | Udp : UdpSocketInfo → ProtocolSocketInfo
deriving DecidableEq, Repr

/-- netstat2 SocketInfo: socket data plus its associated PIDs. -/
structure SocketInfo where
  protocol_socket_info : ProtocolSocketInfo
  associated_pids : List Nat
deriving DecidableEq, Repr

/-- process_info.rs AddressPort. -/
structure AddressPort where
  address : Option String
  port : Option Nat
deriving DecidableEq, Repr

/-- process_info.rs ProcessInfo: one row of the inventory. -/
structure ProcessInfo where
  protocol : String
  «local» : AddressPort
  remote : AddressPort
  state : String
  pid : Nat
  process_name : String
deriving DecidableEq, Repr

/-- netstat.rs tcp_state_to_string. -/
def tcp_state_to_string : TcpState → String
  | TcpState.Closed => "CLOSED"
  | TcpState.Listen => "LISTEN"
  | TcpState.SynSent => "SYN_SENT"
  | TcpState.SynReceived => "SYN_RECEIVED"
  | TcpState.Established => "ESTABLISHED"
  | TcpState.FinWait1 => "FIN_WAIT_1"
  | TcpState.FinWait2 => "FIN_WAIT_2"
  | TcpState.CloseWait => "CLOSE_WAIT"
  | TcpState.Closing => "CLOSING"
  | TcpState.LastAck => "LAST_ACK"
  | TcpState.TimeWait => "TIME_WAIT"
  | TcpState.DeleteTcb => "DELETE_TCB"
  | TcpState.Unknown => "UNKNOWN"

/-- netstat.rs is_wildcard. -/
def is_wildcard : IpAddr → Bool
  | IpAddr.V4 v4 => v4.is_unspecified
  | IpAddr.V6 v6 => v6.is_unspecified

/-- netstat.rs normalize_address. -/
def normalize_address (addr : IpAddr) : Option String :=
  if is_wildcard addr then none else some addr.to_string

/-- netstat.rs is_ipv6. -/
def is_ipv6 : IpAddr → Bool
  | IpAddr.V4 _ => false
  | IpAddr.V6 _ => true

/-- HashMap::insert on the pid-to-name map: overwrite the key's entry. -/
def hashMapInsert (m : Nat → Option String) (k : Nat) (v : String) : Nat → Option String :=
  fun q => if q = k then some v else m q

/-- The pid_name_map built in fetch_process_info_list: one HashMap::insert
per process-table pair, later pairs overwriting earlier ones. -/
def buildPidNameMap (processes : List (Nat × String)) : Nat → Option String :=
  processes.foldl (fun m p => hashMapInsert m p.1 p.2) (fun _ => none)

/-- The loop body of fetch_process_info_list: build one ProcessInfo from
one SocketInfo, given the pid-to-name map. -/
def socketToProcessInfo (pid_name_map : Nat → Option String) (socket : SocketInfo) :
    ProcessInfo :=
  let pid := socket.associated_pids.headD 0
  let process_name := (pid_name_map pid).getD ""
  match socket.protocol_socket_info with
  | ProtocolSocketInfo.Tcp tcp =>
      { protocol := if is_ipv6 tcp.local_addr then "tcp6" else "tcp"
        «local» := { address := normalize_address tcp.local_addr
                     port := some tcp.local_port }
        remote := { address := normalize_address tcp.remote_addr
                    port := some tcp.remote_port }
        state := tcp_state_to_string tcp.state
        pid := pid
        process_name := process_name }
  | ProtocolSocketInfo.Udp udp =>
      { protocol := if is_ipv6 udp.local_addr then "udp6" else "udp"
        «local» := { address := normalize_address udp.local_addr
                     port := some udp.local_port }
        remote := { address := none
                    port := none }
        state := ""
        pid := pid
        process_name := process_name }

/-- netstat.rs fetch_process_info_list, with the two OS queries as
parameters: the socket enumeration result (Ok sockets or the enumerator's
error) and the process-table pairs read by sysinfo. -/
def fetch_process_info_list (socketsResult : Except String (List SocketInfo))
    (processes : List (Nat × String)) : Except String (List ProcessInfo) :=
  match socketsResult with
  | Except.error e => Except.error ("Failed to get sockets: " ++ e)
  | Except.ok sockets =>
      let pid_name_map := buildPidNameMap processes
      Except.ok (sockets.map (socketToProcessInfo pid_name_map))

/-- The local address of a socket descriptor, whichever its transport. -/
def socketLocalAddr (s : SocketInfo) : IpAddr :=
  match s.protocol_socket_info with
  | ProtocolSocketInfo.Tcp tcp => tcp.local_addr
  | ProtocolSocketInfo.Udp udp => udp.local_addr

/-- The transport of a socket descriptor, as the spec speaks of it. -/
inductive Transport where
  | tcp
  | udp
deriving DecidableEq, Repr

/-- The transport of a socket descriptor. -/
def socketTransport (s : SocketInfo) : Transport :=
  match s.protocol_socket_info with
  | ProtocolSocketInfo.Tcp _ => Transport.tcp
  | ProtocolSocketInfo.Udp _ => Transport.udp

/-- The protocol label as the spec describes it: a function of the
transport and of whether the local address is IPv6, and of nothing else. -/
def protocolLabel : Transport → Bool → String
  | Transport.tcp, true => "tcp6"
  | Transport.tcp, false => "tcp"
  | Transport.udp, true => "udp6"
  | Transport.udp, false => "udp"

/-- The thirteen strings of the fixed TCP-state vocabulary. -/
def tcpStateVocabulary : List String :=
  ["CLOSED", "LISTEN", "SYN_SENT", "SYN_RECEIVED", "ESTABLISHED", "FIN_WAIT_1",
   "FIN_WAIT_2", "CLOSE_WAIT", "CLOSING", "LAST_ACK", "TIME_WAIT", "DELETE_TCB",
   "UNKNOWN"]

/-- The twelve named TCP states; Unknown is the catch-all outside this set. -/
def namedTcpStates : List TcpState :=
  [TcpState.Closed, TcpState.Listen, TcpState.SynSent, TcpState.SynReceived,
   TcpState.Established, TcpState.FinWait1, TcpState.FinWait2, TcpState.CloseWait,
   TcpState.Closing, TcpState.LastAck, TcpState.TimeWait, TcpState.DeleteTcb]

/-! Helper lemmas shared by the claim proofs. -/

/-- A successful build is exactly the per-socket map over the enumeration. -/
theorem fetch_ok_eq (sockets : List SocketInfo) (processes : List (Nat × String))
    (records : List ProcessInfo)
    (h : fetch_process_info_list (Except.ok sockets) processes = Except.ok records) :
    records = sockets.map (socketToProcessInfo (buildPidNameMap processes)) := by
  simp only [fetch_process_info_list, Except.ok.injEq] at h
  exact h.symm

/-- The record at index i is the loop body applied to the socket at index i. -/
theorem records_get_eq (sockets : List SocketInfo) (processes : List (Nat × String))
    (records : List ProcessInfo)
    (h : fetch_process_info_list (Except.ok sockets) processes = Except.ok records)
    (i : Nat) (hi : i < sockets.length) (hr : i < records.length) :
    records[i] = socketToProcessInfo (buildPidNameMap processes) sockets[i] := by
  have hrec := fetch_ok_eq sockets processes records h
  subst hrec
  simp

/-- A key with no pair in the process table is absent from the built map. -/
theorem buildPidNameMap_absent (processes : List (Nat × String)) (k : Nat)
    (h : ∀ name, (k, name) ∉ processes) : buildPidNameMap processes k = none := by
  suffices H : ∀ (l : List (Nat × String)) (m : Nat → Option String),
      (∀ name, (k, name) ∉ l) → m k = none →
      l.foldl (fun m p => hashMapInsert m p.1 p.2) m k = none by
    exact H processes (fun _ => none) h rfl
  intro l
  induction l with
  | nil => intro m _ hm; exact hm
  | cons p t ih =>
      intro m hnot hm
      refine ih (hashMapInsert m p.1 p.2) ?_ ?_
      · intro name hmem
        exact hnot name (List.mem_cons_of_mem p hmem)
      · show hashMapInsert m p.1 p.2 k = none
        unfold hashMapInsert
        have hk : ¬ k = p.1 := by
          intro hk
          apply hnot p.2
          have hp : (k, p.2) = p := by rw [hk]
          rw [hp]
          exact List.mem_cons_self p t
        simp [hk, hm]

/-- The code's wildcard test holds exactly on the two unspecified addresses. -/
theorem is_wildcard_iff (a : IpAddr) :
    is_wildcard a = true ↔
      (a = IpAddr.V4 ⟨0, 0, 0, 0⟩ ∨ a = IpAddr.V6 ⟨0, 0, 0, 0, 0, 0, 0, 0⟩) := by
  cases a with
  | V4 v4 =>
      cases v4
      simp [is_wildcard, Ipv4Addr.is_unspecified, and_assoc]
  | V6 v6 =>
      cases v6
      simp [is_wildcard, Ipv6Addr.is_unspecified, and_assoc]

/-- The TCP branch of the loop body, as one record equation. -/
theorem socketToProcessInfo_tcp_eq (m : Nat → Option String) (s : SocketInfo)
    (tcp : TcpSocketInfo) (h : s.protocol_socket_info = ProtocolSocketInfo.Tcp tcp) :
    socketToProcessInfo m s =
      { protocol := if is_ipv6 tcp.local_addr then "tcp6" else "tcp"
        «local» := { address := normalize_address tcp.local_addr
                     port := some tcp.local_port }
        remote := { address := normalize_address tcp.remote_addr
                    port := some tcp.remote_port }
        state := tcp_state_to_string tcp.state
        pid := s.associated_pids.headD 0
        process_name := (m (s.associated_pids.headD 0)).getD "" } := by
  simp [socketToProcessInfo, h]

/-- The UDP branch of the loop body, as one record equation. -/
theorem socketToProcessInfo_udp_eq (m : Nat → Option String) (s : SocketInfo)
    (udp : UdpSocketInfo) (h : s.protocol_socket_info = ProtocolSocketInfo.Udp udp) :
    socketToProcessInfo m s =
      { protocol := if is_ipv6 udp.local_addr then "udp6" else "udp"
        «local» := { address := normalize_address udp.local_addr
                     port := some udp.local_port }
        remote := { address := none
                    port := none }
        state := ""
        pid := s.associated_pids.headD 0
        process_name := (m (s.associated_pids.headD 0)).getD "" } := by
  simp [socketToProcessInfo, h]

/-- The record's local endpoint address is the normalized local address,
whichever the transport. -/
theorem socketToProcessInfo_local_address (m : Nat → Option String) (s : SocketInfo) :
    (socketToProcessInfo m s).«local».address = normalize_address (socketLocalAddr s) := by
  cases hps : s.protocol_socket_info <;>
    simp [socketToProcessInfo, socketLocalAddr, hps]

/-- The local address in the TCP branch. -/
theorem socketLocalAddr_tcp (s : SocketInfo) (tcp : TcpSocketInfo)
    (h : s.protocol_socket_info = ProtocolSocketInfo.Tcp tcp) :
    socketLocalAddr s = tcp.local_addr := by
  simp [socketLocalAddr, h]

/-- The local address in the UDP branch. -/
theorem socketLocalAddr_udp (s : SocketInfo) (udp : UdpSocketInfo)
    (h : s.protocol_socket_info = ProtocolSocketInfo.Udp udp) :
    socketLocalAddr s = udp.local_addr := by
  simp [socketLocalAddr, h]

/-- The transport of a TCP descriptor. -/
theorem socketTransport_tcp (s : SocketInfo) (tcp : TcpSocketInfo)
    (h : s.protocol_socket_info = ProtocolSocketInfo.Tcp tcp) :
    socketTransport s = Transport.tcp := by
  simp [socketTransport, h]

/-- The transport of a UDP descriptor. -/
theorem socketTransport_udp (s : SocketInfo) (udp : UdpSocketInfo)
    (h : s.protocol_socket_info = ProtocolSocketInfo.Udp udp) :
    socketTransport s = Transport.udp := by
  simp [socketTransport, h]

/-- The pid of the built record, whichever the transport. -/
theorem socketToProcessInfo_pid (m : Nat → Option String) (s : SocketInfo) :
    (socketToProcessInfo m s).pid = s.associated_pids.headD 0 := by
  cases hps : s.protocol_socket_info <;> simp [socketToProcessInfo, hps]

/-- The process name of the built record, whichever the transport. -/
theorem socketToProcessInfo_process_name (m : Nat → Option String) (s : SocketInfo) :
    (socketToProcessInfo m s).process_name = (m (s.associated_pids.headD 0)).getD "" := by
  cases hps : s.protocol_socket_info <;> simp [socketToProcessInfo, hps]

/-- A concrete (non-unspecified) address fails the code's wildcard test. -/
theorem is_wildcard_eq_false (a : IpAddr)
    (h : ¬ (a = IpAddr.V4 ⟨0, 0, 0, 0⟩ ∨ a = IpAddr.V6 ⟨0, 0, 0, 0, 0, 0, 0, 0⟩)) :
    is_wildcard a = false := by
  rcases Bool.eq_false_or_eq_true (is_wildcard a) with ht | hf
  · exact absurd ((is_wildcard_iff a).mp ht) h
  · exact hf

/-- The spec's notion of the wildcard: the unspecified address of either
family, 0.0.0.0 for IPv4 and the all-zero address for IPv6. -/
def isUnspecifiedAddr (a : IpAddr) : Prop :=
  a = IpAddr.V4 ⟨0, 0, 0, 0⟩ ∨ a = IpAddr.V6 ⟨0, 0, 0, 0, 0, 0, 0, 0⟩

/-! Concrete sockets and records used by witnesses and counterexamples. -/

/-- A UDP socket on the IPv4 wildcard at port 53, with no owning PID. -/
def udpWildcardSocket : SocketInfo :=
  { protocol_socket_info :=
      ProtocolSocketInfo.Udp { local_addr := IpAddr.V4 ⟨0, 0, 0, 0⟩, local_port := 53 }
    associated_pids := [] }

/-- The record the build produces for udpWildcardSocket over an empty
process table. -/
def udpWildcardRecord : ProcessInfo :=
  { protocol := "udp"
    «local» := { address := none, port := some 53 }
    remote := { address := none, port := none }
    state := ""
    pid := 0
    process_name := "" }

/-- An established TCP socket 127.0.0.1:8080 to 10.0.0.5:54321, PID 42. -/
def tcpSampleSocket : SocketInfo :=
  { protocol_socket_info :=
      ProtocolSocketInfo.Tcp
        { local_addr := IpAddr.V4 ⟨127, 0, 0, 1⟩
          local_port := 8080
          remote_addr := IpAddr.V4 ⟨10, 0, 0, 5⟩
          remote_port := 54321
          state := TcpState.Established }
    associated_pids := [42] }

/-- The record for tcpSampleSocket when PID 42 is named "server". -/
def tcpSampleRecord : ProcessInfo :=
  { protocol := "tcp"
    «local» := { address := some "127.0.0.1", port := some 8080 }
    remote := { address := some "10.0.0.5", port := some 54321 }
    state := "ESTABLISHED"
    pid := 42
    process_name := "server" }

/-- The record for tcpSampleSocket when PID 42 is absent from the table. -/
def tcpSampleRecordUnresolved : ProcessInfo :=
  { protocol := "tcp"
    «local» := { address := some "127.0.0.1", port := some 8080 }
    remote := { address := some "10.0.0.5", port := some 54321 }
    state := "ESTABLISHED"
    pid := 42
    process_name := "" }

/-! The claims. -/

/-- Claim C1: if the socket enumeration query fails, fetch_process_info_list
returns that enumeration error as a single descriptive failure and produces
no records at all; the result is the error alone, never a partial list. -/
theorem c1_enumeration_error_fail_fast (e : String) (processes : List (Nat × String)) :
    fetch_process_info_list (Except.error e) processes =
      Except.error ("Failed to get sockets: " ++ e) := rfl

/-- Claim C5: tcp_state_to_string is total on the state enumeration, lands
in the fixed 13-string vocabulary, sends distinct states to distinct
strings, and sends every state outside the twelve named ones (that is, the
Unknown catch-all) to "UNKNOWN". -/
theorem c5_tcp_state_vocabulary :
    tcpStateVocabulary.length = 13 ∧
    tcpStateVocabulary.Nodup ∧
    (∀ s : TcpState, tcp_state_to_string s ∈ tcpStateVocabulary) ∧
    (∀ s t : TcpState, tcp_state_to_string s = tcp_state_to_string t → s = t) ∧
    (∀ s : TcpState, s ∉ namedTcpStates → tcp_state_to_string s = "UNKNOWN") := by
  decide

/-- Claim C2: a socket whose local address is the unspecified address of
its family yields a record with local.address absent; a concrete local
address yields its canonical textual form. The same normalization applies
to the remote address of a TCP socket. -/
theorem c2_wildcard_normalization (sockets : List SocketInfo)
    (processes : List (Nat × String)) (records : List ProcessInfo)
    (h : fetch_process_info_list (Except.ok sockets) processes = Except.ok records)
    (i : Nat) (hi : i < sockets.length) (hr : i < records.length) :
    (isUnspecifiedAddr (socketLocalAddr sockets[i]) →
      records[i].«local».address = none) ∧
    (¬ isUnspecifiedAddr (socketLocalAddr sockets[i]) →
      records[i].«local».address =
        some (IpAddr.to_string (socketLocalAddr sockets[i]))) ∧
    (∀ tcp : TcpSocketInfo,
      sockets[i].protocol_socket_info = ProtocolSocketInfo.Tcp tcp →
      (isUnspecifiedAddr tcp.remote_addr →
        records[i].remote.address = none) ∧
      (¬ isUnspecifiedAddr tcp.remote_addr →
        records[i].remote.address = some (IpAddr.to_string tcp.remote_addr))) := by
  rw [records_get_eq sockets processes records h i hi hr]
  refine ⟨?_, ?_, ?_⟩
  · intro hw
    have hw' := (is_wildcard_iff (socketLocalAddr sockets[i])).mpr hw
    rw [socketToProcessInfo_local_address]
    simp [normalize_address, hw']
  · intro hw
    have hw' := is_wildcard_eq_false (socketLocalAddr sockets[i]) hw
    rw [socketToProcessInfo_local_address]
    simp [normalize_address, hw']
  · intro tcp htcp
    rw [socketToProcessInfo_tcp_eq (buildPidNameMap processes) sockets[i] tcp htcp]
    constructor
    · intro hw
      have hw' := (is_wildcard_iff tcp.remote_addr).mpr hw
      simp [normalize_address, hw']
    · intro hw
      have hw' := is_wildcard_eq_false tcp.remote_addr hw
      simp [normalize_address, hw']

/-- Claim C3: the protocol field is "tcp6" or "udp6" exactly when the local
address of the socket is IPv6, and the protocol string is a function of the
transport and the local address family only, never of the remote address. -/
theorem c3_protocol_from_local_family (sockets : List SocketInfo)
    (processes : List (Nat × String)) (records : List ProcessInfo)
    (h : fetch_process_info_list (Except.ok sockets) processes = Except.ok records)
    (i : Nat) (hi : i < sockets.length) (hr : i < records.length) :
    ((records[i].protocol = "tcp6" ∨ records[i].protocol = "udp6")
      ↔ ∃ v6, socketLocalAddr sockets[i] = IpAddr.V6 v6) ∧
    records[i].protocol =
      protocolLabel (socketTransport sockets[i]) (is_ipv6 (socketLocalAddr sockets[i])) := by
  rw [records_get_eq sockets processes records h i hi hr]
  cases hps : sockets[i].protocol_socket_info with
  | Tcp tcp =>
      rw [socketToProcessInfo_tcp_eq (buildPidNameMap processes) sockets[i] tcp hps,
        socketLocalAddr_tcp sockets[i] tcp hps, socketTransport_tcp sockets[i] tcp hps]
      cases hla : tcp.local_addr <;> simp [hla, is_ipv6, protocolLabel]
  | Udp udp =>
      rw [socketToProcessInfo_udp_eq (buildPidNameMap processes) sockets[i] udp hps,
        socketLocalAddr_udp sockets[i] udp hps, socketTransport_udp sockets[i] udp hps]
      cases hla : udp.local_addr <;> simp [hla, is_ipv6, protocolLabel]

/-- Claim C4: a record built from a UDP socket has both remote.address and
remote.port absent and an empty state string, whatever the descriptor. -/
theorem c4_udp_remote_absent (sockets : List SocketInfo)
    (processes : List (Nat × String)) (records : List ProcessInfo)
    (h : fetch_process_info_list (Except.ok sockets) processes = Except.ok records)
    (i : Nat) (hi : i < sockets.length) (hr : i < records.length)
    (udp : UdpSocketInfo)
    (hudp : sockets[i].protocol_socket_info = ProtocolSocketInfo.Udp udp) :
    records[i].remote.address = none ∧
    records[i].remote.port = none ∧
    records[i].state = "" := by
  rw [records_get_eq sockets processes records h i hi hr,
    socketToProcessInfo_udp_eq (buildPidNameMap processes) sockets[i] udp hudp]
  exact ⟨rfl, rfl, rfl⟩

/-- Witness for claim C2 at the sample TCP socket. -/
theorem c2_wildcard_normalization_witness :
    (isUnspecifiedAddr (socketLocalAddr ([tcpSampleSocket].get ⟨0, by decide⟩)) →
      ([tcpSampleRecord].get ⟨0, by decide⟩).«local».address = none) ∧
    (¬ isUnspecifiedAddr (socketLocalAddr ([tcpSampleSocket].get ⟨0, by decide⟩)) →
      ([tcpSampleRecord].get ⟨0, by decide⟩).«local».address =
        some (IpAddr.to_string (socketLocalAddr ([tcpSampleSocket].get ⟨0, by decide⟩)))) ∧
    (∀ tcp : TcpSocketInfo,
      ([tcpSampleSocket].get ⟨0, by decide⟩).protocol_socket_info =
        ProtocolSocketInfo.Tcp tcp →
      (isUnspecifiedAddr tcp.remote_addr →
        ([tcpSampleRecord].get ⟨0, by decide⟩).remote.address = none) ∧
      (¬ isUnspecifiedAddr tcp.remote_addr →
        ([tcpSampleRecord].get ⟨0, by decide⟩).remote.address =
          some (IpAddr.to_string tcp.remote_addr))) :=
  c2_wildcard_normalization [tcpSampleSocket] [(42, "server")] [tcpSampleRecord] rfl 0
    (by decide) (by decide)

/-- Witness for claim C3 at the sample TCP socket. -/
theorem c3_protocol_from_local_family_witness :
    ((([tcpSampleRecord].get ⟨0, by decide⟩).protocol = "tcp6" ∨
        ([tcpSampleRecord].get ⟨0, by decide⟩).protocol = "udp6")
      ↔ ∃ v6, socketLocalAddr ([tcpSampleSocket].get ⟨0, by decide⟩) = IpAddr.V6 v6) ∧
    ([tcpSampleRecord].get ⟨0, by decide⟩).protocol =
      protocolLabel (socketTransport ([tcpSampleSocket].get ⟨0, by decide⟩))
        (is_ipv6 (socketLocalAddr ([tcpSampleSocket].get ⟨0, by decide⟩))) :=
  c3_protocol_from_local_family [tcpSampleSocket] [(42, "server")] [tcpSampleRecord] rfl 0
    (by decide) (by decide)

/-- Witness for claim C4 at the wildcard UDP socket. -/
theorem c4_udp_remote_absent_witness :
    ([udpWildcardRecord].get ⟨0, by decide⟩).remote.address = none ∧
    ([udpWildcardRecord].get ⟨0, by decide⟩).remote.port = none ∧
    ([udpWildcardRecord].get ⟨0, by decide⟩).state = "" :=
  c4_udp_remote_absent [udpWildcardSocket] [] [udpWildcardRecord] rfl 0 (by decide)
    (by decide) { local_addr := IpAddr.V4 ⟨0, 0, 0, 0⟩, local_port := 53 } rfl

/-- Claim C6 counterexample: a socket with an empty associated-PID set
yields pid 0, but when the process table itself holds a pair for PID 0 the
record's process name is that entry, not the empty string. -/
theorem c6_counterexample :
    fetch_process_info_list (Except.ok [udpWildcardSocket]) [(0, "kernel_task")] =
      Except.ok
        [{ protocol := "udp"
           «local» := { address := none, port := some 53 }
           remote := { address := none, port := none }
           state := ""
           pid := 0
           process_name := "kernel_task" }] ∧
    ¬ ("kernel_task" : String) = "" := by
  exact ⟨rfl, by decide⟩

/-- Claim C6 (amended): a socket with an empty associated-PID set yields
pid 0, and its process name is the process-index entry for PID 0, hence
the empty string whenever the process table holds no pair with key 0. -/
theorem c6_empty_pid_set (sockets : List SocketInfo)
    (processes : List (Nat × String)) (records : List ProcessInfo)
    (h : fetch_process_info_list (Except.ok sockets) processes = Except.ok records)
    (i : Nat) (hi : i < sockets.length) (hr : i < records.length)
    (hempty : sockets[i].associated_pids = []) :
    records[i].pid = 0 ∧
    records[i].process_name = (buildPidNameMap processes 0).getD "" ∧
    ((∀ name, (0, name) ∉ processes) → records[i].process_name = "") := by
  rw [records_get_eq sockets processes records h i hi hr,
    socketToProcessInfo_pid, socketToProcessInfo_process_name, hempty]
  refine ⟨rfl, rfl, ?_⟩
  intro habs
  show (buildPidNameMap processes 0).getD "" = ""
  rw [buildPidNameMap_absent processes 0 habs]
  rfl

/-- Witness for the amended claim C6 at the wildcard UDP socket. -/
theorem c6_empty_pid_set_witness :
    ([udpWildcardRecord].get ⟨0, by decide⟩).pid = 0 ∧
    ([udpWildcardRecord].get ⟨0, by decide⟩).process_name =
      (buildPidNameMap [] 0).getD "" ∧
    ((∀ name, (0, name) ∉ ([] : List (Nat × String))) →
      ([udpWildcardRecord].get ⟨0, by decide⟩).process_name = "") :=
  c6_empty_pid_set [udpWildcardSocket] [] [udpWildcardRecord] rfl 0 (by decide)
    (by decide) rfl

/-- Claim C7: a socket whose first associated PID is a nonzero PID with no
entry in the process index yields that PID with an empty process name; the
missing lookup never fails the build. -/
theorem c7_unresolvable_pid (sockets : List SocketInfo)
    (processes : List (Nat × String)) (records : List ProcessInfo)
    (h : fetch_process_info_list (Except.ok sockets) processes = Except.ok records)
    (i : Nat) (hi : i < sockets.length) (hr : i < records.length) (p : Nat)
    (hfirst : sockets[i].associated_pids.head? = some p) (_hp : p ≠ 0)
    (habsent : ∀ name, (p, name) ∉ processes) :
    records[i].pid = p ∧ records[i].process_name = "" := by
  obtain ⟨t, ht⟩ : ∃ t, sockets[i].associated_pids = p :: t := by
    cases hl : sockets[i].associated_pids with
    | nil => rw [hl] at hfirst; exact absurd hfirst (by simp)
    | cons a t =>
        rw [hl] at hfirst
        simp only [List.head?_cons, Option.some.injEq] at hfirst
        exact ⟨t, by rw [hfirst]⟩
  rw [records_get_eq sockets processes records h i hi hr,
    socketToProcessInfo_pid, socketToProcessInfo_process_name, ht]
  refine ⟨rfl, ?_⟩
  show (buildPidNameMap processes p).getD "" = ""
  rw [buildPidNameMap_absent processes p habsent]
  rfl

/-- Witness for claim C7: PID 42 is absent from a table holding only PID 1. -/
theorem c7_unresolvable_pid_witness :
    ([tcpSampleRecordUnresolved].get ⟨0, by decide⟩).pid = 42 ∧
    ([tcpSampleRecordUnresolved].get ⟨0, by decide⟩).process_name = "" :=
  c7_unresolvable_pid [tcpSampleSocket] [(1, "init")] [tcpSampleRecordUnresolved] rfl 0
    (by decide) (by decide) 42 rfl (by decide)
    (by intro name hmem; simp at hmem)

/-- Claim C8 counterexample: the build does not de-duplicate; two identical
socket descriptors yield two identical records in the output. -/
theorem c8_counterexample :
    fetch_process_info_list (Except.ok [udpWildcardSocket, udpWildcardSocket]) [] =
      Except.ok [udpWildcardRecord, udpWildcardRecord] ∧
    ¬ ([udpWildcardRecord, udpWildcardRecord] : List ProcessInfo).Nodup := by
  exact ⟨rfl, by decide⟩

/-- Claim C8 (amended): the build emits exactly one inventory record per
enumerated socket, in enumeration order — the output has the length of the
enumeration and its i-th record is built from the i-th socket — with no
de-duplication pass. -/
theorem c8_one_record_per_socket (sockets : List SocketInfo)
    (processes : List (Nat × String)) (records : List ProcessInfo)
    (h : fetch_process_info_list (Except.ok sockets) processes = Except.ok records) :
    records.length = sockets.length ∧
    ∀ i (hi : i < sockets.length) (hr : i < records.length),
      records[i] = socketToProcessInfo (buildPidNameMap processes) sockets[i] := by
  refine ⟨?_, ?_⟩
  · rw [fetch_ok_eq sockets processes records h, List.length_map]
  · intro i hi hr
    exact records_get_eq sockets processes records h i hi hr

/-- Witness for the amended claim C8 on a two-socket enumeration. -/
theorem c8_one_record_per_socket_witness :
    ([udpWildcardRecord, udpWildcardRecord] : List ProcessInfo).length =
      ([udpWildcardSocket, udpWildcardSocket] : List SocketInfo).length ∧
    ∀ i (hi : i < ([udpWildcardSocket, udpWildcardSocket] : List SocketInfo).length)
      (hr : i < ([udpWildcardRecord, udpWildcardRecord] : List ProcessInfo).length),
      ([udpWildcardRecord, udpWildcardRecord] : List ProcessInfo).get ⟨i, hr⟩ =
        socketToProcessInfo (buildPidNameMap [])
          (([udpWildcardSocket, udpWildcardSocket] : List SocketInfo).get ⟨i, hi⟩) :=
  c8_one_record_per_socket [udpWildcardSocket, udpWildcardSocket] []
    [udpWildcardRecord, udpWildcardRecord] rfl

/-- Claim C9: the build is deterministic in its inputs: over an identical
socket table and an identical process table, two invocations yield
identical output sequences. -/
theorem c9_deterministic (s1 s2 : Except String (List SocketInfo))
    (p1 p2 : List (Nat × String)) (hs : s1 = s2) (hp : p1 = p2) :
    fetch_process_info_list s1 p1 = fetch_process_info_list s2 p2 := by
  rw [hs, hp]

/-- Witness for claim C9 at the sample TCP snapshot. -/
theorem c9_deterministic_witness :
    fetch_process_info_list (Except.ok [tcpSampleSocket]) [(42, "server")] =
      fetch_process_info_list (Except.ok [tcpSampleSocket]) [(42, "server")] :=
  c9_deterministic (Except.ok [tcpSampleSocket]) (Except.ok [tcpSampleSocket])
    [(42, "server")] [(42, "server")] rfl rfl

/-- Claim C10: in every record the build produces, the state string is
empty exactly when the protocol is "udp" or "udp6"; TCP records always
carry one of the nonempty vocabulary strings. -/
theorem c10_state_empty_iff_udp (sockets : List SocketInfo)
    (processes : List (Nat × String)) (records : List ProcessInfo)
    (h : fetch_process_info_list (Except.ok sockets) processes = Except.ok records)
    (r : ProcessInfo) (hr : r ∈ records) :
    r.state = "" ↔ (r.protocol = "udp" ∨ r.protocol = "udp6") := by
  have hrec := fetch_ok_eq sockets processes records h
  subst hrec
  rcases List.mem_map.mp hr with ⟨s, hs, rfl⟩
  cases hps : s.protocol_socket_info with
  | Tcp tcp =>
      rw [socketToProcessInfo_tcp_eq (buildPidNameMap processes) s tcp hps]
      have hstate : ¬ tcp_state_to_string tcp.state = "" := by
        have hall : ∀ st : TcpState, ¬ tcp_state_to_string st = "" := by decide
        exact hall tcp.state
      by_cases hv : is_ipv6 tcp.local_addr <;> simp [hv, hstate]
  | Udp udp =>
      rw [socketToProcessInfo_udp_eq (buildPidNameMap processes) s udp hps]
      by_cases hv : is_ipv6 udp.local_addr <;> simp [hv]

/-- Witness for claim C10 at the sample TCP snapshot. -/
theorem c10_state_empty_iff_udp_witness :
    tcpSampleRecord.state = "" ↔
      (tcpSampleRecord.protocol = "udp" ∨ tcpSampleRecord.protocol = "udp6") :=
  c10_state_empty_iff_udp [tcpSampleSocket] [(42, "server")] [tcpSampleRecord] rfl
    tcpSampleRecord (by simp)

end NetstatCat
